import Mathlib

/-!
Verification of the channel model of `sdk/python/kfp/components/pipeline_channel.py`.

The Python source is shallowly embedded: Python values that can appear in the
`channel_type` position (strings, JSON-decoded values) are the inductive `JsonVal`;
Python exceptions are the `PyError` sum, and fallible constructors and validators
return `Except PyError`.  Machine floats never occur in the inputs treated here and
are outside the model (non-integer JSON numerals are rejected by the modelled
`json.loads`).  Strings are treated at ASCII scope: the Python regexes run with
Unicode classes, but every identifier and type tag handled below is ASCII.
-/

namespace KfpChannel

/-- Python values that can sit in the `channel_type` attribute of a channel:
a `str`, or any value produced by `json.loads` of the placeholder type field
(object, array, string, integer, boolean, null).  Non-integer JSON numbers
(Python floats) are outside the model. -/
inductive JsonVal where
  | str (s : String)
  | int (n : Int)
  | bool (b : Bool)
  | null
  | obj (entries : List (String × JsonVal))
  | arr (elems : List JsonVal)

mutual

/-- Structural equality test on `JsonVal`, embedding Python `==`/`!=` on the
values a `channel_type` can hold.  (Python dict equality ignores insertion order;
the values compared by the embedded code below always agree in order, so the
order-sensitive comparison is faithful on the inputs that occur.) -/
def jsonBeq : JsonVal → JsonVal → Bool
  | .str a, .str b => a == b
  | .int a, .int b => a == b
  | .bool a, .bool b => a == b
  | .null, .null => true
  | .obj a, .obj b => jsonBeqEntries a b
  | .arr a, .arr b => jsonBeqElems a b
  | _, _ => false

/-- Entry-wise equality of JSON objects (helper of `jsonBeq`). -/
def jsonBeqEntries : List (String × JsonVal) → List (String × JsonVal) → Bool
  | [], [] => true
  | (k1, v1) :: r1, (k2, v2) :: r2 => k1 == k2 && jsonBeq v1 v2 && jsonBeqEntries r1 r2
  | _, _ => false

/-- Element-wise equality of JSON arrays (helper of `jsonBeq`). -/
def jsonBeqElems : List JsonVal → List JsonVal → Bool
  | [], [] => true
  | a :: r1, b :: r2 => jsonBeq a b && jsonBeqElems r1 r2
  | _, _ => false

end

/-- Python truthiness of a `channel_type` value (`channel_type or ''` in
`PipelineChannel.__str__`): falsy are `''`, `0`, `False`, `None`, `{}`, `[]`. -/
def jsonTruthy : JsonVal → Bool
  | .str s => s != ""
  | .int n => n != 0
  | .bool b => b
  | .null => false
  | .obj es => !es.isEmpty
  | .arr xs => !xs.isEmpty

/-- ASCII lower-casing of one character (`str.lower` at ASCII scope). -/
def asciiLowerChar (c : Char) : Char :=
  if 'A' ≤ c && c ≤ 'Z' then Char.ofNat (c.toNat + 32) else c

/-- ASCII lower-casing of a string (`str.lower` at ASCII scope). -/
def asciiLower (s : String) : String := ⟨s.data.map asciiLowerChar⟩

/-- Modelled from the spec: the external classifier `type_utils.is_parameter_type`
(its module is not among the excerpted sources).  Per §6 of the spec, a type tag is
a parameter type iff it names a primitive (string/number/bool/list/dict); every
other tag, and every non-string value, is classified as an artifact type.
The concrete tag set mirrors the primitive spellings the spec lists. -/
def is_parameter_type : JsonVal → Bool
  | .str s => asciiLower s ∈ ["string", "str", "text", "integer", "int", "float",
      "double", "number", "bool", "boolean", "list", "array", "dict", "map"]
  | _ => false

/-- The `[A-Za-z]`: first character of the valid-name grammar. -/
def isAsciiLetter (c : Char) : Bool := c.isUpper || c.isLower

/-- Python `\s` at ASCII scope. -/
def isPySpace (c : Char) : Bool :=
  c = ' ' || c = '\t' || c = '\n' || c = '\x0b' || c = '\x0c' || c = '\r'

/-- Python `\w` at ASCII scope: `[A-Za-z0-9_]`. -/
def isPyWord (c : Char) : Bool := isAsciiLetter c || c.isDigit || c = '_'

/-- Body character of the valid-name grammar `[A-Za-z0-9\s_-]`. -/
def isNameBody (c : Char) : Bool :=
  isAsciiLetter c || c.isDigit || isPySpace c || c = '_' || c = '-'

/-- The `re.match(r'^[A-Za-z][A-Za-z0-9\s_-]*$', name)` from `PipelineChannel.__init__`
(line 88).  The pattern is anchored at both ends and its body class contains `\n`,
so acceptance coincides with: a letter followed by body characters. -/
def validName (name : String) : Bool :=
  match name.data with
  | [] => false
  | c :: rest => isAsciiLetter c && rest.all isNameBody

/-- The Python exceptions raised by the embedded code, abstracted to their kind and
identifying data (the human-readable message texts are not modelled). -/
inductive PyError where
  /-- The `ValueError` from the name-grammar check in `PipelineChannel.__init__`. -/
  | invalidName (name : String)
  /-- The `ValueError('task_name and value cannot be both set.')`. -/
  | conflictingChannelSource
  /-- The `TypeError(f'{channel_type} is not a parameter type.')`. -/
  | notParameterType (ct : JsonVal)
  /-- The `TypeError(f'{channel_type} is not an artifact type.')`. -/
  | notArtifactType (ct : JsonVal)
  /-- The `ValueError`: constants among `OneOf` outputs (count of offending values). -/
  | invalidOperandConstants (count : Nat)
  /-- The `ValueError`: pipeline parameters among `OneOf` outputs (their names). -/
  | invalidOperandPipelineParams (names : List String)
  /-- The `ValueError`: differing `OneOf` output types (all types, in order). -/
  | oneOfTypeMismatch (types : List JsonVal)
  /-- The `ValueError`: fewer than two `OneOf` outputs (the actual count). -/
  | arityViolation (count : Nat)
  /-- The `IndexError` from `outputs[0]` on an empty tuple. -/
  | indexError
  /-- The `ValueError` from `_validate_no_parallel_for_parents`. -/
  | loopNotAllowed (task group : String)
  /-- The `ValueError` from `_validate_no_shared_condition_parents`. -/
  | nonExclusiveBranches (condition : String) (tasks : List String)
  /-- The `ValueError` from `_validate_all_tasks_have_condition_parents`. -/
  | missingConditionAncestor (task : String)
  /-- The `ValueError` from `list.remove` when the element is absent. -/
  | removeNotFound (task : String)

/-- The two channel variants.  `PipelineParameterChannel` additionally stores
`value`; both store `name`, `channel_type` and the (normalized) `task_name`.
Parameter `value`s are the JSON-representable Python values (floats excluded, as
noted above). -/
inductive PipelineChannel where
  | parameter (name : String) (channel_type : JsonVal) (task_name : Option String)
      (value : Option JsonVal)
  | artifact (name : String) (channel_type : JsonVal) (task_name : Option String)

namespace PipelineChannel

/-- The `name` attribute. -/
def name : PipelineChannel → String
  | .parameter n _ _ _ => n
  | .artifact n _ _ => n

/-- The `channel_type` attribute. -/
def channel_type : PipelineChannel → JsonVal
  | .parameter _ ct _ _ => ct
  | .artifact _ ct _ => ct

/-- The stored `task_name` attribute (already normalized by `__init__`). -/
def task_name : PipelineChannel → Option String
  | .parameter _ _ t _ => t
  | .artifact _ _ t => t

end PipelineChannel

/-- Python truthiness of an `Optional[str]` argument (`task_name or None`,
`if task_name and value`): `None` and `''` are falsy. -/
def optStrTruthy : Option String → Bool
  | none => false
  | some s => s ≠ ""

/-- Python truthiness of an optional parameter `value`: absent (`None`) and the
falsy values `0`, `''`, `False`, `[]`, `{}` are falsy. -/
def optValTruthy : Option JsonVal → Bool
  | none => false
  | some v => jsonTruthy v

/-- The `task_name or None` (line 99): an empty-string task name is stored as `None`
"so that serialization and unserialization remain consistent". -/
def normalizeTaskName (task_name : Option String) : Option String :=
  if optStrTruthy task_name then task_name else none

/-- Lower-case hexadecimal digit, for the escape sequences of `json.dumps` and
Python `repr`. -/
def hexDigitChar (n : Nat) : Char :=
  if n < 10 then Char.ofNat (48 + n) else Char.ofNat (87 + n)

/-- Four-digit hexadecimal rendering of a code point (BMP scope; the inputs
handled here are ASCII). -/
def hex4 (n : Nat) : String :=
  ⟨[hexDigitChar (n / 4096 % 16), hexDigitChar (n / 256 % 16),
    hexDigitChar (n / 16 % 16), hexDigitChar (n % 16)]⟩

/-- The `json.dumps` escaping of one string character with the default
`ensure_ascii=True`: the named short escapes, `\u00XX` for other control
characters, and `\uXXXX` for non-ASCII code points (BMP scope). -/
def jsonEscapeChar (c : Char) : String :=
  if c = '"' then "\\\""
  else if c = '\\' then "\\\\"
  else if c = '\n' then "\\n"
  else if c = '\t' then "\\t"
  else if c = '\r' then "\\r"
  else if c = '\x08' then "\\b"
  else if c = '\x0c' then "\\f"
  else if c.toNat < 0x20 || c.toNat > 0x7e then "\\u" ++ hex4 c.toNat
  else String.singleton c

/-- The `json.dumps` rendering of a string body. -/
def jsonEscapeString (s : String) : String :=
  String.join (s.data.map jsonEscapeChar)

mutual

/-- Modelled from the spec: Python's `json.dumps` (standard library, not among the
excerpted sources) with its default separators `', '` and `': '`, as called by
`PipelineChannel.__str__` on dict channel types.  Non-integer numbers are outside
the model. -/
def jsonDumps : JsonVal → String
  | .str s => "\"" ++ jsonEscapeString s ++ "\""
  | .int n => toString n
  | .bool b => if b then "true" else "false"
  | .null => "null"
  | .obj es => "\x7b" ++ jsonDumpsEntries es ++ "\x7d"
  | .arr xs => "[" ++ jsonDumpsElems xs ++ "]"

/-- The `json.dumps` rendering of the entries of an object. -/
def jsonDumpsEntries : List (String × JsonVal) → String
  | [] => ""
  | [(k, v)] => "\"" ++ jsonEscapeString k ++ "\": " ++ jsonDumps v
  | (k, v) :: rest =>
      "\"" ++ jsonEscapeString k ++ "\": " ++ jsonDumps v ++ ", " ++ jsonDumpsEntries rest

/-- The `json.dumps` rendering of the elements of an array. -/
def jsonDumpsElems : List JsonVal → String
  | [] => ""
  | [v] => jsonDumps v
  | v :: rest => jsonDumps v ++ ", " ++ jsonDumpsElems rest

end

/-- Python `repr` of one character inside a quoted string literal (ASCII scope). -/
def pyReprChar (quote : Char) (c : Char) : String :=
  if c = '\\' then "\\\\"
  else if c = quote then "\\" ++ String.singleton quote
  else if c = '\n' then "\\n"
  else if c = '\r' then "\\r"
  else if c = '\t' then "\\t"
  else if c.toNat < 0x20 || c.toNat = 0x7f then
    "\\x" ++ ⟨[hexDigitChar (c.toNat / 16 % 16), hexDigitChar (c.toNat % 16)]⟩
  else String.singleton c

/-- Python `repr` of a string: single-quoted, switching to double quotes when the
string contains a single quote but no double quote. -/
def pyReprStr (s : String) : String :=
  let q : Char := if s.data.contains '\'' && !(s.data.contains '"') then '"' else '\''
  String.singleton q ++ String.join (s.data.map (pyReprChar q)) ++ String.singleton q

mutual

/-- Modelled from the spec: Python's `repr` on the JSON-representable values
(used by `str()` of lists and dicts, hence reachable from the `%s` rendering in
`PipelineChannel.__str__` for array-valued channel types). -/
def pyRepr : JsonVal → String
  | .str s => pyReprStr s
  | .int n => toString n
  | .bool b => if b then "True" else "False"
  | .null => "None"
  | .obj es => "\x7b" ++ pyReprEntries es ++ "\x7d"
  | .arr xs => "[" ++ pyReprElems xs ++ "]"

/-- Python `repr` of dict entries. -/
def pyReprEntries : List (String × JsonVal) → String
  | [] => ""
  | [(k, v)] => pyReprStr k ++ ": " ++ pyRepr v
  | (k, v) :: rest => pyReprStr k ++ ": " ++ pyRepr v ++ ", " ++ pyReprEntries rest

/-- Python `repr` of list elements. -/
def pyReprElems : List JsonVal → String
  | [] => ""
  | [v] => pyRepr v
  | v :: rest => pyRepr v ++ ", " ++ pyReprElems rest

end

/-- Python `str()` of a JSON-representable value, as applied by the `%s` template
interpolation in `PipelineChannel.__str__` to non-dict channel types. -/
def pyStr : JsonVal → String
  | .str s => s
  | v => pyRepr v

/-- The `type` field of the placeholder (lines 121–127 of `__str__`):
`channel_type = self.channel_type or ''`, `json.dumps` if the result is a dict,
`str()` via `%s` otherwise. -/
def channelTypeField (ct : JsonVal) : String :=
  if jsonTruthy ct then
    match ct with
    | .obj es => jsonDumps (.obj es)
    | v => pyStr v
  else ""

/-- The `task` field of the placeholder: `task_name = self.task_name or ''`. -/
def taskNameField (t : Option String) : String := t.getD ""

/-- The `PipelineChannel.__str__` (lines 111–127): renders the placeholder template
`'{{channel:task=%s;name=%s;type=%s;}}'` (`_PIPELINE_CHANNEL_PLACEHOLDER_TEMPLATE`,
line 41).  `__repr__` and the `pattern` property return the same string. -/
def PipelineChannel.str (c : PipelineChannel) : String :=
  "\x7b\x7bchannel:task=" ++ taskNameField c.task_name ++ ";name=" ++ c.name ++
    ";type=" ++ channelTypeField c.channel_type ++ ";\x7d\x7d"

/-- The `pattern` property (lines 106–109): `str(self)`. -/
def PipelineChannel.pattern (c : PipelineChannel) : String := c.str

/-- The name check of `PipelineChannel.__init__` (lines 88–92).  Note that the
code validates only `name`; `task_name` is never checked (the docstring at lines
84–86 claims otherwise). -/
def pipelineChannelNameCheck (name : String) : Except PyError Unit :=
  if validName name then .ok () else .error (.invalidName name)

/-- The `PipelineParameterChannel.__init__` (lines 178–211): the `task_name and value`
conflict check (line 199, Python truthiness), the parameter-type check (line 202),
then the base `__init__` (name check and `task_name or None` normalization). -/
def parameterChannelInit (name : String) (channel_type : JsonVal)
    (task_name : Option String) (value : Option JsonVal) :
    Except PyError PipelineChannel :=
  if optStrTruthy task_name && optValTruthy value then
    .error .conflictingChannelSource
  else if !is_parameter_type channel_type then
    .error (.notParameterType channel_type)
  else do
    pipelineChannelNameCheck name
    .ok (.parameter name channel_type (normalizeTaskName task_name) value)

/-- The `PipelineArtifactChannel.__init__` (lines 226–251): the artifact-type check
(line 244), then the base `__init__`. -/
def artifactChannelInit (name : String) (channel_type : JsonVal)
    (task_name : Option String) : Except PyError PipelineChannel :=
  if is_parameter_type channel_type then
    .error (.notArtifactType channel_type)
  else do
    pipelineChannelNameCheck name
    .ok (.artifact name channel_type (normalizeTaskName task_name))

/-- The `create_pipeline_channel` (lines 254–284): dispatches on
`type_utils.is_parameter_type(channel_type)`; the `value` argument reaches only
the parameter branch (the artifact constructor takes no value). -/
def create_pipeline_channel (name : String) (channel_type : JsonVal)
    (task_name : Option String) (value : Option JsonVal) :
    Except PyError PipelineChannel :=
  if is_parameter_type channel_type then
    parameterChannelInit name channel_type task_name value
  else
    artifactChannelInit name channel_type task_name

/-- The payload universe of `extract_pipeline_channels_from_any` (line 331):
channels, strings, ordered sequences (Python lists and tuples behave identically
there and share one constructor), mappings, and any other value, of which only the
truthiness is observable (extraction returns `[]` for it). -/
inductive PyVal where
  | channel (c : PipelineChannel)
  | str (s : String)
  | seq (items : List PyVal)
  | mapping (entries : List (PyVal × PyVal))
  | other (truthy : Bool)

/-- Python truthiness of a payload (`if not payload:` at line 342): channel
instances define no `__bool__`/`__len__` and are always truthy. -/
def pyTruthy : PyVal → Bool
  | .channel _ => true
  | .str s => s != ""
  | .seq items => !items.isEmpty
  | .mapping entries => !entries.isEmpty
  | .other t => t

/-- The `ConditionOperator` dataclass (lines 26–37). -/
structure ConditionOperator where
  operator : String
  left_operand : PyVal
  right_operand : PyVal

/-- The `PipelineChannel.__eq__` (lines 143–144): comparison is symbolic — it returns
`ConditionOperator('==', self, other)`, not a boolean. -/
def channelDunderEq (c : PipelineChannel) (other : PyVal) : ConditionOperator :=
  ⟨"==", .channel c, other⟩

/-- Python truthiness of a `ConditionOperator`: a dataclass instance without
`__bool__`/`__len__` is always truthy, whatever its operands. -/
def conditionOperatorTruthy (_ : ConditionOperator) : Bool := true

/-- The `PipelineChannel.__hash__` (lines 139–141): `hash(self.pattern)`.  Python's
string hash is modelled as injective, so the hash key is the pattern itself. -/
def channelHashKey (c : PipelineChannel) : String := c.pattern

/-- Python `set` de-duplication of channels, as performed by `unique_channels.add`
(line 325) and `list(set(...))` (lines 349, 355, 362): membership is decided by
`__hash__` — the pattern string under the injective-hash model — and `__eq__`
(an always-truthy `ConditionOperator`) never separates hash-equal channels.
First occurrences are kept in order; the properties proved below are
order-insensitive. -/
def dedupAux (seen : List String) : List PipelineChannel → List PipelineChannel
  | [] => []
  | c :: rest =>
      if c.pattern ∈ seen then dedupAux seen rest
      else c :: dedupAux (c.pattern :: seen) rest

/-- De-duplication by hash key (see `dedupAux`). -/
def dedupByPattern (l : List PipelineChannel) : List PipelineChannel := dedupAux [] l

/-- The `[\w\s_-]`: the `task` and `name` character class of
`_PIPELINE_CHANNEL_PLACEHOLDER_REGEX` (line 44), at ASCII scope. -/
def isTaskChar (c : Char) : Bool := isPyWord c || isPySpace c || c = '-'

/-- The `[\w\s{}":_-]`: the `type` character class of the placeholder regex. -/
def isTypeChar (c : Char) : Bool :=
  isPyWord c || isPySpace c || c = '\x7b' || c = '\x7d' || c = '"' || c = ':' || c = '-'

/-- The literal prefix `{{channel:task=` of the placeholder regex. -/
def litHead : List Char := ("\x7b\x7bchannel:task=").data

/-- The literal `;name=` fragment of the placeholder regex. -/
def litName : List Char := (";name=").data

/-- The literal `;type=` fragment of the placeholder regex. -/
def litType : List Char := (";type=").data

/-- The literal `;}}` tail of the placeholder regex. -/
def litTail : List Char := (";\x7d\x7d").data

/-- Match a literal fragment of the regex against the head of the input. -/
def dropLit : List Char → List Char → Option (List Char)
  | [], cs => some cs
  | _ :: _, [] => none
  | l :: ls, c :: cs => if c = l then dropLit ls cs else none

/-- One match attempt of `_PIPELINE_CHANNEL_PLACEHOLDER_REGEX` anchored at the
head of the input, returning the three captured groups and the rest of the input.
The greedy class runs are exact regex semantics here: `;` — the character that
follows every group in the pattern — belongs to none of the three classes and no
class contains `=`, so the regex admits no backtracking across the group
boundaries. -/
def matchAt (cs : List Char) : Option ((String × String × String) × List Char) := do
  let r ← dropLit litHead cs
  let t := r.takeWhile isTaskChar
  let r ← dropLit litName (r.dropWhile isTaskChar)
  let n := r.takeWhile isTaskChar
  if n.isEmpty then none else do
    let r ← dropLit litType (r.dropWhile isTaskChar)
    let y := r.takeWhile isTypeChar
    let r ← dropLit litTail (r.dropWhile isTypeChar)
    some ((⟨t⟩, ⟨n⟩, ⟨y⟩), r)

/-- The `re.findall(_PIPELINE_CHANNEL_PLACEHOLDER_REGEX, payload)` (line 299): attempt
a match at every position from left to right, resuming after the end of each
match.  Fuel is the input length; every step consumes at least one character, so
the fuel never runs out before the input does. -/
def findAllAux : Nat → List Char → List (String × String × String)
  | 0, _ => []
  | _ + 1, [] => []
  | fuel + 1, c :: rest =>
      match matchAt (c :: rest) with
      | some (g, r) => g :: findAllAux fuel r
      | none => findAllAux fuel rest

/-- The `re.findall` of the placeholder regex over a string. -/
def findAll (s : String) : List (String × String × String) :=
  findAllAux s.data.length s.data

/-- JSON whitespace skipping (`json.loads` accepts space, tab, newline, return). -/
def jsonSkipWs : List Char → List Char
  | [] => []
  | c :: cs => if c = ' ' || c = '\t' || c = '\n' || c = '\r' then jsonSkipWs cs else c :: cs

/-- Hexadecimal-digit test (`[0-9a-fA-F]`). -/
def isHexDigitChar (c : Char) : Bool :=
  c.isDigit || ('a' ≤ c && c ≤ 'f') || ('A' ≤ c && c ≤ 'F')

/-- Parse exactly four hexadecimal digits (the `\uXXXX` escape). -/
def parseHex4 : List Char → Option (Nat × List Char)
  | a :: b :: c :: d :: rest =>
      if isHexDigitChar a && isHexDigitChar b && isHexDigitChar c && isHexDigitChar d then
        let dv : Char → Nat := fun x =>
          if x.isDigit then x.toNat - 48
          else if x.toNat ≥ 97 then x.toNat - 87 else x.toNat - 55
        some (((dv a * 16 + dv b) * 16 + dv c) * 16 + dv d, rest)
      else none
  | _ => none

/-- Parse the body of a JSON string literal up to the closing quote, decoding the
escape sequences (`\uXXXX` at BMP scope; surrogate pairs are outside the model). -/
def parseJsonStringBody : Nat → List Char → Option (List Char × List Char)
  | 0, _ => none
  | _ + 1, [] => none
  | fuel + 1, c :: cs =>
      if c = '"' then some ([], cs)
      else if c = '\\' then
        match cs with
        | [] => none
        | e :: cs' =>
            let dec : Option (Char × List Char) :=
              if e = '"' then some ('"', cs')
              else if e = '\\' then some ('\\', cs')
              else if e = '/' then some ('/', cs')
              else if e = 'b' then some ('\x08', cs')
              else if e = 'f' then some ('\x0c', cs')
              else if e = 'n' then some ('\n', cs')
              else if e = 'r' then some ('\r', cs')
              else if e = 't' then some ('\t', cs')
              else if e = 'u' then
                match parseHex4 cs' with
                | some (n, rest) => some (Char.ofNat n, rest)
                | none => none
              else none
            match dec with
            | some (d, rest) => do
                let (body, rest') ← parseJsonStringBody fuel rest
                some (d :: body, rest')
            | none => none
      else if c.toNat < 0x20 then none
      else do
        let (body, rest') ← parseJsonStringBody fuel cs
        some (c :: body, rest')

/-- Parse a JSON integer literal.  A fraction or exponent (a Python float) makes
the parse fail: non-integer numbers are outside the model, as stated above. -/
def parseJsonInt (cs : List Char) : Option (Int × List Char) :=
  let (neg, cs') : Bool × List Char :=
    match cs with
    | '-' :: rest => (true, rest)
    | _ => (false, cs)
  let digits := cs'.takeWhile Char.isDigit
  let rest := cs'.dropWhile Char.isDigit
  if digits.isEmpty then none
  else if digits.length > 1 && digits.headD '0' = '0' then none
  else match rest with
    | '.' :: _ => none
    | 'e' :: _ => none
    | 'E' :: _ => none
    | _ =>
        let n : Nat := digits.foldl (fun acc d => acc * 10 + (d.toNat - 48)) 0
        some (if neg then -(n : Int) else (n : Int), rest)

/-- Python dict insertion as hit by duplicate JSON object keys: an existing key
keeps its position and takes the new value; a new key is appended. -/
def assocSet (es : List (String × JsonVal)) (k : String) (v : JsonVal) :
    List (String × JsonVal) :=
  match es with
  | [] => [(k, v)]
  | (k1, v1) :: rest => if k1 = k then (k, v) :: rest else (k1, v1) :: assocSet rest k v

mutual

/-- Recursive-descent JSON value parser (fuel-based; fuel bounds the nesting and
never runs out on inputs of length below the initial fuel). -/
def parseJsonValue : Nat → List Char → Option (JsonVal × List Char)
  | 0, _ => none
  | fuel + 1, cs =>
      match cs with
      | 't' :: 'r' :: 'u' :: 'e' :: rest => some (.bool true, rest)
      | 'f' :: 'a' :: 'l' :: 's' :: 'e' :: rest => some (.bool false, rest)
      | 'n' :: 'u' :: 'l' :: 'l' :: rest => some (.null, rest)
      | '"' :: rest => do
          let (body, rest') ← parseJsonStringBody (rest.length + 1) rest
          some (.str ⟨body⟩, rest')
      | '\x7b' :: rest =>
          let rest := jsonSkipWs rest
          (match rest with
           | '\x7d' :: rest' => some (.obj [], rest')
           | _ => do
              let (es, rest') ← parseJsonEntries fuel [] rest
              some (.obj es, rest'))
      | '[' :: rest =>
          let rest := jsonSkipWs rest
          (match rest with
           | ']' :: rest' => some (.arr [], rest')
           | _ => do
              let (xs, rest') ← parseJsonElems fuel rest
              some (.arr xs, rest'))
      | _ => (parseJsonInt cs).map (fun p => (JsonVal.int p.1, p.2))

/-- Parse the entries of a JSON object after the opening brace (accumulating with
Python-dict duplicate-key semantics), up to and including the closing brace. -/
def parseJsonEntries : Nat → List (String × JsonVal) → List Char →
    Option (List (String × JsonVal) × List Char)
  | 0, _, _ => none
  | fuel + 1, acc, cs =>
      match cs with
      | '"' :: rest => do
          let (key, rest) ← parseJsonStringBody (rest.length + 1) rest
          let rest := jsonSkipWs rest
          match rest with
          | ':' :: rest => do
              let (v, rest) ← parseJsonValue fuel (jsonSkipWs rest)
              let acc := assocSet acc (⟨key⟩ : String) v
              let rest := jsonSkipWs rest
              (match rest with
               | ',' :: rest => parseJsonEntries fuel acc (jsonSkipWs rest)
               | '\x7d' :: rest => some (acc, rest)
               | _ => none)
          | _ => none
      | _ => none

/-- Parse the elements of a JSON array after the opening bracket, up to and
including the closing bracket. -/
def parseJsonElems : Nat → List Char → Option (List JsonVal × List Char)
  | 0, _ => none
  | fuel + 1, cs => do
      let (v, rest) ← parseJsonValue fuel cs
      let rest := jsonSkipWs rest
      match rest with
      | ',' :: rest => do
          let (xs, rest') ← parseJsonElems fuel (jsonSkipWs rest)
          some (v :: xs, rest')
      | ']' :: rest => some ([v], rest)
      | _ => none

end

/-- Modelled from the spec: Python's `json.loads` (standard library, not among the
excerpted sources) on the JSON fragment without non-integer numbers, as called at
line 309.  `JSONDecodeError` is `.error ()`; trailing non-whitespace input is an
error ("Extra data"), matching `json.loads`. -/
def jsonLoads (s : String) : Except Unit JsonVal :=
  match parseJsonValue (s.data.length + 1) (jsonSkipWs s.data) with
  | some (v, rest) => if (jsonSkipWs rest).isEmpty then .ok v else .error ()
  | none => .error ()

/-- The type-field decoding step of `extract_pipeline_channels_from_string`
(lines 304–311): try `json.loads`; on `JSONDecodeError` keep the raw string. -/
def decodedType (y : String) : JsonVal :=
  match jsonLoads y with
  | .ok v => v
  | .error _ => .str y

/-- The `extract_pipeline_channels_from_string` (lines 287–327): find all placeholder
matches, rebuild a channel per match — classifying the decoded type with
`is_parameter_type` and calling the corresponding constructor, whose exceptions
propagate — and de-duplicate through the `unique_channels` set. -/
def extract_pipeline_channels_from_string (payload : String) :
    Except PyError (List PipelineChannel) := do
  let found := findAll payload
  let channels ← found.foldlM
    (fun acc g => do
      let (task_name, name, channel_type) := g
      let ct := decodedType channel_type
      let c ←
        if is_parameter_type ct then parameterChannelInit name ct (some task_name) none
        else artifactChannelInit name ct (some task_name)
      pure (acc ++ [c]))
    []
  pure (dedupByPattern channels)

mutual

/-- The `extract_pipeline_channels_from_any` (lines 330–366): `[]` for falsy payloads
(the `if not payload` gate at line 342, folded here into each constructor case —
channel instances are always truthy, and an `other` value yields `[]` whether the
gate fires or the final `return []` at line 366 does), a singleton for a channel,
the de-duplicated string extraction for a string, and the de-duplicated
concatenation over elements (respectively over keys and values) for sequences
(respectively mappings). -/
def extract_pipeline_channels_from_any : PyVal → Except PyError (List PipelineChannel)
  | .channel c => .ok [c]
  | .str s =>
      if s == "" then .ok []
      else do
        let cs ← extract_pipeline_channels_from_string s
        .ok (dedupByPattern cs)
  | .seq items =>
      if items.isEmpty then .ok []
      else do
        let cs ← extractFromSeq items
        .ok (dedupByPattern cs)
  | .mapping entries =>
      if entries.isEmpty then .ok []
      else do
        let cs ← extractFromMapping entries
        .ok (dedupByPattern cs)
  | .other _ => .ok []

/-- The `for item in payload` accumulation of `extract_pipeline_channels_from_any`
over a sequence (lines 351–355). -/
def extractFromSeq : List PyVal → Except PyError (List PipelineChannel)
  | [] => .ok []
  | item :: rest => do
      let c1 ← extract_pipeline_channels_from_any item
      let c2 ← extractFromSeq rest
      .ok (c1 ++ c2)

/-- The `for key, value in payload.items()` accumulation over a mapping
(lines 357–362). -/
def extractFromMapping : List (PyVal × PyVal) → Except PyError (List PipelineChannel)
  | [] => .ok []
  | (k, v) :: rest => do
      let ck ← extract_pipeline_channels_from_any k
      let cv ← extract_pipeline_channels_from_any v
      let cr ← extractFromMapping rest
      .ok (ck ++ cv ++ cr)

end

/-- Modelled from the spec: the group-kind taxonomy `groupType ∈ {Root, Condition,
ParallelFor, ExitHandler}` of §3 (`tasks_group.TasksGroupType` lives outside the
excerpted sources).  The topology checks read nothing else of a group, so the
flat group index `group_name_to_group` is modelled as a map into this type. -/
inductive GroupType where
  | root
  | condition
  | forLoop
  | exitHandler
  deriving DecidableEq

/-- The `isinstance(val, pipeline_channel.PipelineChannel)` (line 411). -/
def PyVal.isChannel : PyVal → Bool
  | .channel _ => true
  | _ => false

/-- View a payload as the channel it is, when it is one. -/
def PyVal.asChannel : PyVal → Option PipelineChannel
  | .channel c => some c
  | _ => none

/-- The `OneOf._validate_tuple` (lines 406–439), run at construction (line 400):
constants check, pipeline-parameter check, type-uniformity check (whose
`outputs[0]` raises `IndexError` on an empty tuple), then the arity check. -/
def validate_tuple (outputs : List PyVal) : Except PyError Unit := do
  let constants := outputs.filter (fun v => !v.isChannel)
  if !constants.isEmpty then
    throw (.invalidOperandConstants constants.length)
  let chans := outputs.filterMap PyVal.asChannel
  let pipeline_parameters :=
    (chans.filter (fun c => c.task_name.isNone)).map PipelineChannel.name
  if !pipeline_parameters.isEmpty then
    throw (.invalidOperandPipelineParams pipeline_parameters)
  match chans with
  | [] => throw .indexError
  | c0 :: _ =>
      let all_types := chans.map PipelineChannel.channel_type
      if all_types.any (fun t => !jsonBeq t c0.channel_type) then
        throw (.oneOfTypeMismatch all_types)
      if outputs.length < 2 then
        throw (.arityViolation outputs.length)
      pure ()

/-- The `parents.remove(task_name)` (line 494): Python's `list.remove` drops the first
occurrence and raises `ValueError` when the element is absent. -/
def listRemoveFirst (l : List String) (x : String) : Except PyError (List String) :=
  match l with
  | [] => .error (.removeNotFound x)
  | y :: rest =>
      if y = x then .ok rest
      else do
        let r ← listRemoveFirst rest x
        .ok (y :: r)

/-- The `OneOf._branch_tasks` (lines 441–443): the `task_name`s of the outputs.  When
this property is read the outputs have passed `_validate_tuple`, so each is a
channel. -/
def branch_tasks (outputs : List PyVal) : List (Option String) :=
  outputs.filterMap (fun v => (PyVal.asChannel v).map PipelineChannel.task_name)

/-- The preprocessing loop of `_validate_topology` (lines 491–496): strip each
task's own name from its parent chain (`parents.remove(task_name)`, for every
task) and keep the tasks that appear in `_branch_tasks`. -/
def resolveBranchParents (task_name_to_parent_groups : List (String × List String))
    (branch : List (Option String)) : Except PyError (List (String × List String)) :=
  task_name_to_parent_groups.foldlM
    (fun acc p => do
      let parents ← listRemoveFirst p.2 p.1
      if branch.contains (some p.1) then pure (acc ++ [(p.1, parents)]) else pure acc)
    []

/-- The `OneOf._validate_no_parallel_for_parents` (lines 464–477): the first parent of
the first task (in iteration order) whose group is a ParallelFor raises. -/
def validate_no_parallel_for_parents (m : List (String × List String))
    (g : String → GroupType) : Except PyError Unit :=
  match m with
  | [] => .ok ()
  | (task, parents) :: rest =>
      match parents.find? (fun p => g p = GroupType.forLoop) with
      | some p => .error (.loopNotAllowed task p)
      | none => validate_no_parallel_for_parents rest g

/-- One append to a `collections.defaultdict(list)`: the first access to a key
creates its entry at the end of the dict; later appends extend the list in
place. -/
def defaultDictAppend (d : List (String × List String)) (k v : String) :
    List (String × List String) :=
  match d with
  | [] => [(k, [v])]
  | (k1, vs) :: rest =>
      if k1 = k then (k1, vs ++ [v]) :: rest else (k1, vs) :: defaultDictAppend rest k v

/-- The `parent_condition_to_task` accumulation of
`_validate_no_shared_condition_parents` (lines 452–457). -/
def parentConditionToTask (m : List (String × List String)) (g : String → GroupType) :
    List (String × List String) :=
  m.foldl
    (fun d p =>
      (p.2.filter (fun par => g par = GroupType.condition)).foldl
        (fun d par => defaultDictAppend d par p.1) d)
    []

/-- The `OneOf._validate_no_shared_condition_parents` (lines 445–462): group the tasks
by Condition-typed parent, then raise on the first condition group (in dict
order) that gathers more than one task. -/
def validate_no_shared_condition_parents (m : List (String × List String))
    (g : String → GroupType) : Except PyError Unit :=
  match (parentConditionToTask m g).find? (fun e => e.2.length > 1) with
  | some e => .error (.nonExclusiveBranches e.1 e.2)
  | none => .ok ()

/-- The list comprehension of `_validate_all_tasks_have_condition_parents`
(lines 514–519), embedded with its doubled loop: `[group_name_to_group[parent]
for parent in parents if group_name_to_group[parent].group_type == CONDITION
for parent in parents]` filters on the outer binder and then re-runs the full
loop on the rebound inner binder, whose groups it yields. -/
def conditionParentsComprehension (parents : List String) (g : String → GroupType) :
    List GroupType :=
  (parents.filter (fun p => g p = GroupType.condition)).flatMap (fun _ => parents.map g)

/-- The `OneOf._validate_all_tasks_have_condition_parents` (lines 505–522): raise for
the first task (in iteration order) whose comprehension above is empty. -/
def validate_all_tasks_have_condition_parents (m : List (String × List String))
    (g : String → GroupType) : Except PyError Unit :=
  match m with
  | [] => .ok ()
  | (task, parents) :: rest =>
      if (conditionParentsComprehension parents g).isEmpty then
        .error (.missingConditionAncestor task)
      else validate_all_tasks_have_condition_parents rest g

/-- The `OneOf._validate_topology` (lines 479–503), parametrized by the topology
resolver's outputs (spec §4.3): `task_name_to_parent_groups` — each task's
ancestor chain including the task's own synthetic self entry — and the flat group
index reduced to the `group_type` attribute, the only field the checks read.  The
resolver itself (`compiler_utils.get_parent_groups`, `get_all_groups`) lives
outside the excerpted sources.  The three checks run in the source's order:
ParallelFor parents, shared Condition parents, missing Condition parents. -/
def validate_topology (task_name_to_parent_groups : List (String × List String))
    (branch : List (Option String)) (g : String → GroupType) : Except PyError Unit := do
  let no_self ← resolveBranchParents task_name_to_parent_groups branch
  validate_no_parallel_for_parents no_self g
  validate_no_shared_condition_parents no_self g
  validate_all_tasks_have_condition_parents no_self g

/-- The complete `OneOf` validation in the order the source runs it:
`_validate_tuple` at construction (line 400), then `_validate_topology` when the
compiler's topology pass reaches the instance. -/
def oneOfValidate (outputs : List PyVal)
    (task_name_to_parent_groups : List (String × List String))
    (g : String → GroupType) : Except PyError Unit := do
  validate_tuple outputs
  validate_topology task_name_to_parent_groups (branch_tasks outputs) g

/-- The `full_name` property (lines 101–104):
`f'{self.task_name}-{self.name}' if self.task_name else self.name`. -/
def PipelineChannel.full_name (c : PipelineChannel) : String :=
  if optStrTruthy c.task_name then c.task_name.getD "" ++ "-" ++ c.name else c.name

/-- Is the channel a `PipelineParameterChannel`? -/
def PipelineChannel.isParameterVariant : PipelineChannel → Bool
  | .parameter _ _ _ _ => true
  | .artifact _ _ _ => false

/-- The stored `value` attribute of a parameter channel (`None` on artifact
channels, which do not define it). -/
def PipelineChannel.value : PipelineChannel → Option JsonVal
  | .parameter _ _ _ v => v
  | .artifact _ _ _ => none

/-- Rule-level outcome of the constants check of `_validate_tuple` (lines
409–416), evaluated independently of the other rules. -/
def ruleConstants (outputs : List PyVal) : Option PyError :=
  let constants := outputs.filter (fun v => !v.isChannel)
  if !constants.isEmpty then some (.invalidOperandConstants constants.length) else none

/-- Rule-level outcome of the pipeline-parameter check (lines 418–425). -/
def rulePipelineParams (outputs : List PyVal) : Option PyError :=
  let chans := outputs.filterMap PyVal.asChannel
  let ps := (chans.filter (fun c => c.task_name.isNone)).map PipelineChannel.name
  if !ps.isEmpty then some (.invalidOperandPipelineParams ps) else none

/-- Rule-level outcome of the type-uniformity check (lines 427–433), including
the `IndexError` its `outputs[0]` raises on an empty tuple. -/
def ruleTypeUniformity (outputs : List PyVal) : Option PyError :=
  match outputs.filterMap PyVal.asChannel with
  | [] => some .indexError
  | c0 :: rest =>
      let all_types := (c0 :: rest).map PipelineChannel.channel_type
      if all_types.any (fun t => !jsonBeq t c0.channel_type) then
        some (.oneOfTypeMismatch all_types)
      else none

/-- Rule-level outcome of the arity check (lines 435–439). -/
def ruleArity (outputs : List PyVal) : Option PyError :=
  if outputs.length < 2 then some (.arityViolation outputs.length) else none

/-- Rule-level outcome of the ParallelFor-ancestor check, evaluated
independently: the first offending (task, parent) pair in iteration order. -/
def ruleLoop (ns : List (String × List String)) (g : String → GroupType) :
    Option PyError :=
  ns.findSome? (fun p =>
    (p.2.find? (fun par => g par = GroupType.forLoop)).map
      (fun par => .loopNotAllowed p.1 par))

/-- Rule-level outcome of the shared-Condition-parent check. -/
def ruleShared (ns : List (String × List String)) (g : String → GroupType) :
    Option PyError :=
  ((parentConditionToTask ns g).find? (fun e => e.2.length > 1)).map
    (fun e => .nonExclusiveBranches e.1 e.2)

/-- Rule-level outcome of the missing-Condition-ancestor check. -/
def ruleMissing (ns : List (String × List String)) (g : String → GroupType) :
    Option PyError :=
  (ns.find? (fun p => (conditionParentsComprehension p.2 g).isEmpty)).map
    (fun p => .missingConditionAncestor p.1)

/-- First error in an ordered list of independently evaluated rule outcomes. -/
def firstSomeErr : List (Option PyError) → Except PyError Unit
  | [] => .ok ()
  | some e :: _ => .error e
  | none :: rest => firstSomeErr rest

/-- The first violated rule in the SOURCE's order: constants, pipeline
parameters, type uniformity (with its empty-tuple `IndexError`), arity; then the
self-entry stripping of the topology pass, and the topology rules in the order
ParallelFor ancestor, shared Condition parent, missing Condition ancestor. -/
def codeOrderFirstViolation (outputs : List PyVal)
    (m : List (String × List String)) (g : String → GroupType) : Except PyError Unit := do
  firstSomeErr [ruleConstants outputs, rulePipelineParams outputs,
    ruleTypeUniformity outputs, ruleArity outputs]
  match resolveBranchParents m (branch_tasks outputs) with
  | .error e => .error e
  | .ok ns => firstSomeErr [ruleLoop ns g, ruleShared ns g, ruleMissing ns g]

/-- Rule 2 as the SPEC words it ("channel types across outputs are not all
identical"): with no outputs the types are vacuously identical — no
`IndexError` appears in the spec's algorithm. -/
def ruleTypeUniformitySpec (outputs : List PyVal) : Option PyError :=
  match outputs.filterMap PyVal.asChannel with
  | [] => none
  | c0 :: rest =>
      let all_types := (c0 :: rest).map PipelineChannel.channel_type
      if all_types.any (fun t => !jsonBeq t c0.channel_type) then
        some (.oneOfTypeMismatch all_types)
      else none

/-- Modelled from the spec's words (§4.4): the `OneOf` validation algorithm in the
order the SPEC claims — (1) literal/pipeline-input operand, (2) type mismatch,
(3) arity, (4) ancestor-chain computation, (5) missing Condition ancestor,
(6) shared Condition ancestor, (7) ParallelFor ancestor.  This is the comparison
definition for the order refinement claim; the source's own order is
`oneOfValidate`. -/
def specOneOfAlgorithm (outputs : List PyVal)
    (m : List (String × List String)) (g : String → GroupType) : Except PyError Unit := do
  firstSomeErr [ruleConstants outputs, rulePipelineParams outputs,
    ruleTypeUniformitySpec outputs, ruleArity outputs]
  match resolveBranchParents m (branch_tasks outputs) with
  | .error e => .error e
  | .ok ns => firstSomeErr [ruleMissing ns g, ruleShared ns g, ruleLoop ns g]

/-- The validity scope of the round-trip claim: the name — and the producing task
when present — satisfies the naming grammar, and the encoded type field matches
the regex's type character class `[\w\s{}":_-]` (the spec's own §6 grammar for
the field). -/
def validChannelScope (c : PipelineChannel) : Bool :=
  validName c.name &&
    (match c.task_name with
     | none => true
     | some t => validName t) &&
    (channelTypeField c.channel_type).data.all isTypeChar

/-! ### Helper lemmas -/

mutual

/-- The `jsonBeq` is reflexive. -/
theorem jsonBeq_refl : ∀ v, jsonBeq v v = true
  | .str s => by simp [jsonBeq]
  | .int n => by simp [jsonBeq]
  | .bool b => by simp [jsonBeq]
  | .null => by simp [jsonBeq]
  | .obj es => by simp [jsonBeq]; exact jsonBeqEntries_refl es
  | .arr xs => by simp [jsonBeq]; exact jsonBeqElems_refl xs

/-- The `jsonBeqEntries` is reflexive. -/
theorem jsonBeqEntries_refl : ∀ es, jsonBeqEntries es es = true
  | [] => by simp [jsonBeqEntries]
  | (k, v) :: rest => by
      simp [jsonBeqEntries]
      exact ⟨jsonBeq_refl v, jsonBeqEntries_refl rest⟩

/-- The `jsonBeqElems` is reflexive. -/
theorem jsonBeqElems_refl : ∀ xs, jsonBeqElems xs xs = true
  | [] => by simp [jsonBeqElems]
  | v :: rest => by
      simp [jsonBeqElems]
      exact ⟨jsonBeq_refl v, jsonBeqElems_refl rest⟩

end

/-- Every channel produced by `dedupAux seen l` has a pattern outside `seen`. -/
theorem mem_dedupAux_pattern_notMem (seen : List String) (l : List PipelineChannel) :
    ∀ x ∈ dedupAux seen l, x.pattern ∉ seen := by
  induction l generalizing seen with
  | nil => intro x hx; simp [dedupAux] at hx
  | cons c rest ih =>
      intro x hx
      by_cases h : c.pattern ∈ seen
      · rw [dedupAux, if_pos h] at hx
        exact ih seen x hx
      · rw [dedupAux, if_neg h] at hx
        rw [List.mem_cons] at hx
        rcases hx with rfl | hx
        · exact h
        · have := ih (c.pattern :: seen) x hx
          intro hmem
          exact this (List.mem_cons_of_mem _ hmem)

/-- The `dedupAux` never returns two channels with the same pattern. -/
theorem dedupAux_pairwise (seen : List String) (l : List PipelineChannel) :
    (dedupAux seen l).Pairwise (fun a b => a.pattern ≠ b.pattern) := by
  induction l generalizing seen with
  | nil => simp [dedupAux]
  | cons c rest ih =>
      by_cases h : c.pattern ∈ seen
      · rw [dedupAux, if_pos h]
        exact ih seen
      · rw [dedupAux, if_neg h]
        refine List.Pairwise.cons ?_ (ih (c.pattern :: seen))
        intro x hx hpat
        have := mem_dedupAux_pattern_notMem (c.pattern :: seen) rest x hx
        exact this (by rw [← hpat]; exact List.mem_cons_self _ _)

/-- The `dedupByPattern` never returns two channels with the same pattern. -/
theorem dedupByPattern_pairwise (l : List PipelineChannel) :
    (dedupByPattern l).Pairwise (fun a b => a.pattern ≠ b.pattern) :=
  dedupAux_pairwise [] l

/-! ### C2: channel equality and de-duplication identity -/

/-- C2 counterexample: `__eq__` is not the encoded-string equality.  For the two
channels below the encoded placeholder strings differ, yet `c1 == c2` evaluates
to a `ConditionOperator`, which Python treats as true in every boolean context
(so, read as a boolean equality, the code's `==` relates channels whose encoded
strings differ). -/
theorem c2_eq_is_symbolic_counterexample :
    conditionOperatorTruthy
        (channelDunderEq (.parameter "a" (.str "String") none none)
          (.channel (.parameter "b" (.str "String") none none))) = true ∧
    (PipelineChannel.parameter "a" (.str "String") none none).pattern ≠
      (PipelineChannel.parameter "b" (.str "String") none none).pattern := by
  constructor
  · rfl
  · decide

/-- C2 (amended): the identity actually used for de-duplication and hashing is
the encoded placeholder string — `__hash__` is `hash(self.pattern)` and `__eq__`
is always truthy, so (under the injective string-hash model) the set-based
de-duplication collapses two channels exactly when their encoded strings are
equal. -/
theorem c2_dedup_identity_is_pattern (c1 c2 : PipelineChannel) :
    ((dedupByPattern [c1, c2] = [c1]) ↔ c1.pattern = c2.pattern) ∧
    ((channelHashKey c1 = channelHashKey c2) ↔ c1.pattern = c2.pattern) := by
  constructor
  · constructor
    · intro h
      by_cases hp : c1.pattern = c2.pattern
      · exact hp
      · exfalso
        have : dedupByPattern [c1, c2] = [c1, c2] := by
          simp [dedupByPattern, dedupAux]
          intro hc
          exact absurd hc.symm hp
        rw [this] at h
        simp at h
    · intro hp
      simp [dedupByPattern, dedupAux, hp]
  · exact Iff.rfl

/-! ### Constructor inversion lemmas -/

/-- Inversion of a successful `PipelineParameterChannel.__init__`. -/
theorem parameterChannelInit_ok {name : String} {ct : JsonVal}
    {task : Option String} {value : Option JsonVal} {c : PipelineChannel}
    (h : parameterChannelInit name ct task value = .ok c) :
    c = .parameter name ct (normalizeTaskName task) value ∧
      is_parameter_type ct = true ∧ validName name = true ∧
      (optStrTruthy task && optValTruthy value) = false := by
  unfold parameterChannelInit at h
  by_cases h1 : optStrTruthy task && optValTruthy value
  · rw [if_pos h1] at h; exact absurd h (by simp)
  · rw [if_neg h1] at h
    by_cases h2 : is_parameter_type ct = true
    · rw [if_neg (by simp [h2])] at h
      unfold pipelineChannelNameCheck at h
      by_cases h3 : validName name = true
      · rw [if_pos h3] at h
        simp only [bind, Except.bind, Except.ok.injEq] at h
        exact ⟨h.symm, h2, h3, by rw [← Bool.not_eq_true]; exact h1⟩
      · rw [if_neg h3] at h
        simp [bind, Except.bind] at h
    · rw [if_pos (by simp [h2])] at h
      exact absurd h (by simp)

/-- Inversion of a successful `PipelineArtifactChannel.__init__`. -/
theorem artifactChannelInit_ok {name : String} {ct : JsonVal}
    {task : Option String} {c : PipelineChannel}
    (h : artifactChannelInit name ct task = .ok c) :
    c = .artifact name ct (normalizeTaskName task) ∧
      is_parameter_type ct = false ∧ validName name = true := by
  unfold artifactChannelInit at h
  by_cases h2 : is_parameter_type ct = true
  · rw [if_pos h2] at h; exact absurd h (by simp)
  · rw [if_neg h2] at h
    unfold pipelineChannelNameCheck at h
    by_cases h3 : validName name = true
    · rw [if_pos h3] at h
      simp only [bind, Except.bind, Except.ok.injEq] at h
      exact ⟨h.symm, by simpa using h2, h3⟩
    · rw [if_neg h3] at h
      simp [bind, Except.bind] at h

/-- A `PipelineParameterChannel.__init__` with a valid name, parameter type and
non-conflicting arguments succeeds. -/
theorem parameterChannelInit_eq_ok {name : String} {ct : JsonVal}
    {task : Option String} {value : Option JsonVal}
    (h1 : (optStrTruthy task && optValTruthy value) = false)
    (h2 : is_parameter_type ct = true) (h3 : validName name = true) :
    parameterChannelInit name ct task value =
      .ok (.parameter name ct (normalizeTaskName task) value) := by
  unfold parameterChannelInit pipelineChannelNameCheck
  rw [if_neg (by simp [h1]), if_neg (by simp [h2]), if_pos h3]
  rfl

/-- A `PipelineArtifactChannel.__init__` with a valid name and an artifact type
succeeds. -/
theorem artifactChannelInit_eq_ok {name : String} {ct : JsonVal}
    {task : Option String}
    (h2 : is_parameter_type ct = false) (h3 : validName name = true) :
    artifactChannelInit name ct task =
      .ok (.artifact name ct (normalizeTaskName task)) := by
  unfold artifactChannelInit pipelineChannelNameCheck
  rw [if_neg (by simp [h2]), if_pos h3]
  rfl

/-! ### C3: the producing task name is never validated -/

/-- C3: `PipelineChannel.__init__` validates only `name` against the naming
grammar; `task_name` is never checked (contradicting the docstring at lines
84–86 and the spec).  Creating a channel with a valid name and the
grammar-violating producing task `"1task"` succeeds and stores the invalid task
name verbatim. -/
theorem c3_task_name_never_validated :
    create_pipeline_channel "x" (.str "String") (some "1task") none =
      .ok (.parameter "x" (.str "String") (some "1task") none) ∧
    validName "1task" = false := ⟨rfl, rfl⟩

/-! ### C4: variant dispatch and the dropped artifact literal value -/

/-- C4 counterexample: `create("y", "Model", literalValue=5)` does NOT fail with
a type mismatch — `create_pipeline_channel` passes `value` only to the parameter
branch, so the artifact branch silently drops it and succeeds. -/
theorem c4_artifact_literal_not_rejected :
    is_parameter_type (.str "Model") = false ∧
    create_pipeline_channel "y" (.str "Model") none (some (.int 5)) =
      .ok (.artifact "y" (.str "Model") none) := ⟨rfl, rfl⟩

/-- C4 (amended): dispatch is by `is_parameter_type` — a parameter-classified
`channelType` yields a `PipelineParameterChannel` and any other yields a
`PipelineArtifactChannel` — but a `literalValue` supplied together with an
artifact-classified `channelType` is silently ignored rather than rejected: the
result is independent of `value` in that branch. -/
theorem c4_dispatch (name : String) (ct : JsonVal) (task : Option String)
    (value : Option JsonVal) :
    (∀ c, create_pipeline_channel name ct task value = .ok c →
      c.isParameterVariant = is_parameter_type ct) ∧
    (is_parameter_type ct = false →
      ∀ value2, create_pipeline_channel name ct task value2 =
        artifactChannelInit name ct task) := by
  constructor
  · intro c hc
    unfold create_pipeline_channel at hc
    by_cases hp : is_parameter_type ct = true
    · rw [if_pos hp] at hc
      rcases parameterChannelInit_ok hc with ⟨rfl, -, -, -⟩
      simp [PipelineChannel.isParameterVariant, hp]
    · rw [if_neg hp] at hc
      rcases artifactChannelInit_ok hc with ⟨rfl, hart, -⟩
      simp [PipelineChannel.isParameterVariant, hart]
  · intro hp value2
    unfold create_pipeline_channel
    rw [if_neg (by simp [hp])]

/-- Witness for `c4_dispatch` at `create("y", "Model", literalValue=5)`. -/
theorem c4_dispatch_witness :
    (PipelineChannel.artifact "y" (.str "Model") none).isParameterVariant =
      is_parameter_type (.str "Model") ∧
    create_pipeline_channel "y" (.str "Model") none (some (.int 5)) =
      artifactChannelInit "y" (.str "Model") none :=
  ⟨(c4_dispatch "y" (.str "Model") none (some (.int 5))).1 _ rfl,
   (c4_dispatch "y" (.str "Model") none (some (.int 5))).2 rfl (some (.int 5))⟩

/-! ### C5: the conflict check uses truthiness, not presence -/

/-- C5 counterexample: a falsy literal value (here `0`) together with a producing
task does NOT raise — `if task_name and value:` sees a falsy operand — and the
constructed channel holds both the producing task and the literal value. -/
theorem c5_falsy_literal_not_rejected :
    parameterChannelInit "x" (.str "Integer") (some "t") (some (.int 0)) =
      .ok (.parameter "x" (.str "Integer") (some "t") (some (.int 0))) ∧
    (PipelineChannel.parameter "x" (.str "Integer") (some "t")
        (some (.int 0))).task_name = some "t" ∧
    (PipelineChannel.parameter "x" (.str "Integer") (some "t")
        (some (.int 0))).value = some (.int 0) := ⟨rfl, rfl, rfl⟩

/-- C5 (amended): creation fails with the conflicting-source `ValueError` exactly
when both `producingTask` and `literalValue` are TRUTHY; a supplied-but-falsy
literal value (`0`, `''`, `False`, empty containers) together with a producing
task passes the check, and every successfully constructed parameter channel
stores the supplied value verbatim alongside its task name. -/
theorem c5_conflict_is_truthiness (name : String) (ct : JsonVal)
    (task : Option String) (value : Option JsonVal) :
    (optStrTruthy task = true → optValTruthy value = true →
      parameterChannelInit name ct task value = .error .conflictingChannelSource) ∧
    (∀ c, parameterChannelInit name ct task value = .ok c →
      c = .parameter name ct (normalizeTaskName task) value) := by
  constructor
  · intro ht hv
    unfold parameterChannelInit
    rw [if_pos (by rw [ht, hv]; rfl)]
  · intro c hc
    exact (parameterChannelInit_ok hc).1

/-- Witness for `c5_conflict_is_truthiness`: the truthy-truthy conflict at
`("t", 1)` and the successful falsy-value construction at `("t", 0)`. -/
theorem c5_conflict_witness :
    parameterChannelInit "x" (.str "Integer") (some "t") (some (.int 1)) =
      .error .conflictingChannelSource ∧
    PipelineChannel.parameter "x" (.str "Integer") (some "t") (some (.int 0)) =
      .parameter "x" (.str "Integer") (normalizeTaskName (some "t")) (some (.int 0)) :=
  ⟨(c5_conflict_is_truthiness "x" (.str "Integer") (some "t") (some (.int 1))).1 rfl rfl,
   (c5_conflict_is_truthiness "x" (.str "Integer") (some "t") (some (.int 0))).2 _ rfl⟩

/-! ### C7: fewer than two outputs -/

/-- C7 counterexample: a `OneOf` over ZERO outputs does not fail with the arity
`ValueError` — `argument_type = outputs[0].channel_type` raises `IndexError`
first, because the arity check is placed after the type-uniformity check. -/
theorem c7_empty_outputs_index_error :
    validate_tuple [] = .error .indexError := rfl

/-- C7 (amended): with exactly one output that is a task-produced channel,
`_validate_tuple` fails with the arity `ValueError` (reporting one output) and
with nothing else; with zero outputs it fails with `IndexError` instead (see the
counterexample). -/
theorem c7_single_output_arity (c : PipelineChannel)
    (h : c.task_name.isNone = false) :
    validate_tuple [.channel c] = .error (.arityViolation 1) := by
  simp [validate_tuple, PyVal.isChannel, PyVal.asChannel, List.filter, List.filterMap,
    h, jsonBeq_refl, throw, throwThe, MonadExceptOf.throw]

/-- Witness for `c7_single_output_arity` at a concrete task output. -/
theorem c7_single_output_arity_witness :
    validate_tuple [.channel (.parameter "o" (.str "String") (some "t") none)] =
      .error (.arityViolation 1) :=
  c7_single_output_arity (.parameter "o" (.str "String") (some "t") none) rfl

/-! ### C10: empty-string producing task is normalized away -/

/-- C10: a channel constructed with an empty-string producing task stores
`task_name = None` (line 99), so it is indistinguishable from a pipeline-input
channel: construction agrees with the task-less construction on both variants,
and every channel so constructed has no stored task, a `full_name` without a task
prefix, and an empty `task=` placeholder field. -/
theorem c10_empty_task_name_normalized (name : String) (ct : JsonVal)
    (value : Option JsonVal) :
    parameterChannelInit name ct (some "") value =
      parameterChannelInit name ct none value ∧
    artifactChannelInit name ct (some "") = artifactChannelInit name ct none ∧
    (∀ c, parameterChannelInit name ct (some "") value = .ok c →
      c.task_name = none ∧ c.full_name = c.name ∧ taskNameField c.task_name = "") ∧
    (∀ c, artifactChannelInit name ct (some "") = .ok c →
      c.task_name = none ∧ c.full_name = c.name ∧ taskNameField c.task_name = "") := by
  refine ⟨?_, ?_, ?_, ?_⟩
  · simp [parameterChannelInit, normalizeTaskName, optStrTruthy]
  · simp [artifactChannelInit, normalizeTaskName, optStrTruthy]
  · intro c hc
    rcases parameterChannelInit_ok hc with ⟨rfl, -, -, -⟩
    refine ⟨rfl, ?_, rfl⟩
    simp [PipelineChannel.full_name, PipelineChannel.task_name, PipelineChannel.name,
      normalizeTaskName, optStrTruthy]
  · intro c hc
    rcases artifactChannelInit_ok hc with ⟨rfl, -, -⟩
    refine ⟨rfl, ?_, rfl⟩
    simp [PipelineChannel.full_name, PipelineChannel.task_name, PipelineChannel.name,
      normalizeTaskName, optStrTruthy]

/-- Witness for `c10_empty_task_name_normalized` at a concrete construction. -/
theorem c10_empty_task_name_witness :
    (PipelineChannel.parameter "x" (.str "String") none none).task_name = none ∧
    (PipelineChannel.parameter "x" (.str "String") none none).full_name =
      (PipelineChannel.parameter "x" (.str "String") none none).name ∧
    taskNameField (PipelineChannel.parameter "x" (.str "String") none none).task_name = "" :=
  (c10_empty_task_name_normalized "x" (.str "String") none).2.2.1 _ rfl

/-! ### C8: every branch must have a Condition ancestor -/

/-- The doubled-loop comprehension is empty exactly when no parent is a
Condition group. -/
theorem conditionParentsComprehension_isEmpty (parents : List String)
    (g : String → GroupType) :
    (conditionParentsComprehension parents g).isEmpty = true ↔
      ∀ p ∈ parents, g p ≠ GroupType.condition := by
  unfold conditionParentsComprehension
  rw [List.isEmpty_iff]
  constructor
  · intro h p hp hcond
    have hmem : p ∈ parents.filter (fun q => g q = GroupType.condition) := by
      rw [List.mem_filter]
      exact ⟨hp, by simp [hcond]⟩
    have : parents.map g ≠ [] := by
      simp only [ne_eq, List.map_eq_nil_iff]
      intro hnil
      rw [hnil] at hp
      simp at hp
    rcases List.exists_mem_of_ne_nil _ this with ⟨x, hx⟩
    have : x ∈ (parents.filter (fun q => g q = GroupType.condition)).flatMap
        (fun _ => parents.map g) := by
      rw [List.mem_flatMap]
      exact ⟨p, hmem, hx⟩
    rw [h] at this
    simp at this
  · intro h
    rw [List.flatMap_eq_nil_iff]
    intro x hx
    rw [List.mem_filter] at hx
    exact absurd (by simpa using hx.2) (h x hx.1)

/-- C8: `_validate_all_tasks_have_condition_parents` succeeds exactly when every
producing task has at least one Condition group in its (self-excluded) ancestor
chain, and every failure it can produce is a missing-Condition-ancestor
`ValueError`. -/
theorem c8_condition_ancestor_required (m : List (String × List String))
    (g : String → GroupType) :
    (validate_all_tasks_have_condition_parents m g = .ok () ↔
      ∀ p ∈ m, ∃ parent ∈ p.2, g parent = GroupType.condition) ∧
    (∀ e, validate_all_tasks_have_condition_parents m g = .error e →
      ∃ task, e = .missingConditionAncestor task) := by
  induction m with
  | nil => exact ⟨by simp [validate_all_tasks_have_condition_parents], by
      intro e he
      simp [validate_all_tasks_have_condition_parents] at he⟩
  | cons hd tl ih =>
      constructor
      · by_cases hhd : (conditionParentsComprehension hd.2 g).isEmpty = true
        · rw [validate_all_tasks_have_condition_parents, if_pos hhd]
          constructor
          · intro h; exact absurd h (by simp)
          · intro h
            rcases h hd (by simp) with ⟨parent, hp, hcond⟩
            rw [conditionParentsComprehension_isEmpty] at hhd
            exact absurd hcond (hhd parent hp)
        · rw [validate_all_tasks_have_condition_parents, if_neg hhd]
          rw [ih.1]
          constructor
          · intro h p hp
            rcases List.mem_cons.mp hp with rfl | hp
            · have hex : ¬ ∀ parent ∈ p.2, g parent ≠ GroupType.condition := by
                rw [← conditionParentsComprehension_isEmpty p.2 g]
                exact hhd
              push_neg at hex
              rcases hex with ⟨parent, hmem, hcond⟩
              exact ⟨parent, hmem, hcond⟩
            · exact h p hp
          · intro h p hp
            exact h p (List.mem_cons_of_mem _ hp)
      · intro e he
        by_cases hhd : (conditionParentsComprehension hd.2 g).isEmpty = true
        · rw [validate_all_tasks_have_condition_parents, if_pos hhd] at he
          exact ⟨hd.1, by injection he with h; exact h.symm⟩
        · rw [validate_all_tasks_have_condition_parents, if_neg hhd] at he
          exact ih.2 e he

/-- Witness for `c8_condition_ancestor_required` at a small concrete topology. -/
theorem c8_condition_ancestor_witness :
    validate_all_tasks_have_condition_parents
      [("t1", ["c1", "root"]), ("t2", ["c2", "root"])]
      (fun s => if s = "c1" || s = "c2" then GroupType.condition else GroupType.root) =
      .ok () :=
  (c8_condition_ancestor_required _ _).1.mpr (by decide)

/-- Companion witness for `c2_dedup_identity_is_pattern`: equal-pattern channels
do collapse in a concrete de-duplication. -/
theorem c2_dedup_identity_witness :
    dedupByPattern [PipelineChannel.parameter "a" (.str "String") none none,
        PipelineChannel.parameter "a" (.str "String") none none] =
      [PipelineChannel.parameter "a" (.str "String") none none] :=
  (c2_dedup_identity_is_pattern _ _).1.mpr rfl

/-! ### C9: extraction never returns duplicate channels -/

/-- Binding an extraction result into a final de-duplication only ever returns
de-duplicated lists. -/
theorem bind_dedup_ok {e : Except PyError (List PipelineChannel)}
    {l : List PipelineChannel}
    (h : (do
        let cs ← e
        Except.ok (dedupByPattern cs)) = Except.ok l) :
    ∃ cs, l = dedupByPattern cs := by
  cases e with
  | error err => simp [bind, Except.bind] at h
  | ok cs =>
      refine ⟨cs, ?_⟩
      simp only [bind, Except.bind, Except.ok.injEq] at h
      exact h.symm

/-- C9: neither `extract_pipeline_channels_from_string` nor
`extract_pipeline_channels_from_any` ever returns two channels with the same
encoded placeholder string, whatever the input. -/
theorem c9_extraction_never_duplicates (s : String) (payload : PyVal) :
    (∀ l, extract_pipeline_channels_from_string s = .ok l →
      l.Pairwise (fun a b => a.pattern ≠ b.pattern)) ∧
    (∀ l, extract_pipeline_channels_from_any payload = .ok l →
      l.Pairwise (fun a b => a.pattern ≠ b.pattern)) := by
  have hstr : ∀ (s' : String) (l : List PipelineChannel),
      extract_pipeline_channels_from_string s' = .ok l →
      l.Pairwise (fun a b => a.pattern ≠ b.pattern) := by
    intro s' l hl
    unfold extract_pipeline_channels_from_string at hl
    rcases bind_dedup_ok hl with ⟨cs, rfl⟩
    exact dedupByPattern_pairwise cs
  refine ⟨hstr s, ?_⟩
  intro l hl
  cases payload with
  | channel c =>
      rw [extract_pipeline_channels_from_any] at hl
      injection hl with h
      rw [← h]
      simp
  | str s' =>
      rw [extract_pipeline_channels_from_any] at hl
      by_cases hs : s' == ""
      · rw [if_pos hs] at hl
        injection hl with h
        rw [← h]; simp
      · rw [if_neg hs] at hl
        rcases bind_dedup_ok hl with ⟨cs, rfl⟩
        exact dedupByPattern_pairwise cs
  | seq items =>
      rw [extract_pipeline_channels_from_any] at hl
      by_cases hs : items.isEmpty
      · rw [if_pos hs] at hl
        injection hl with h
        rw [← h]; simp
      · rw [if_neg hs] at hl
        rcases bind_dedup_ok hl with ⟨cs, rfl⟩
        exact dedupByPattern_pairwise cs
  | mapping entries =>
      rw [extract_pipeline_channels_from_any] at hl
      by_cases hs : entries.isEmpty
      · rw [if_pos hs] at hl
        injection hl with h
        rw [← h]; simp
      · rw [if_neg hs] at hl
        rcases bind_dedup_ok hl with ⟨cs, rfl⟩
        exact dedupByPattern_pairwise cs
  | other t =>
      rw [extract_pipeline_channels_from_any] at hl
      injection hl with h
      rw [← h]; simp

/-- Witness for `c9_extraction_never_duplicates`: a payload containing the same
placeholder twice extracts to a single channel, trivially duplicate-free. -/
theorem c9_extraction_witness :
    List.Pairwise (fun (a b : PipelineChannel) => a.pattern ≠ b.pattern)
      [PipelineChannel.parameter "x" (.str "String") (some "t") none] :=
  (c9_extraction_never_duplicates
      ("\x7b\x7bchannel:task=t;name=x;type=String;\x7d\x7d and again " ++
        "\x7b\x7bchannel:task=t;name=x;type=String;\x7d\x7d")
      (.other false)).1 _ (by rfl)

/-! ### C6: validation order -/

/-- The `_validate_tuple` is the first violated rule among its four checks in source
order: constants, pipeline parameters, type uniformity (with its empty-tuple
`IndexError`), arity. -/
theorem validate_tuple_eq_rules (outputs : List PyVal) :
    validate_tuple outputs =
      firstSomeErr [ruleConstants outputs, rulePipelineParams outputs,
        ruleTypeUniformity outputs, ruleArity outputs] := by
  unfold validate_tuple ruleConstants rulePipelineParams ruleTypeUniformity ruleArity
  simp only [bind, Except.bind, pure, Except.pure, throw, throwThe, MonadExceptOf.throw]
  by_cases h1 : (!(outputs.filter (fun v => !v.isChannel)).isEmpty) = true
  · rw [if_pos h1, if_pos h1]
    rfl
  · rw [if_neg h1, if_neg h1]
    by_cases h2 : (!(((outputs.filterMap PyVal.asChannel).filter
        (fun c => c.task_name.isNone)).map PipelineChannel.name).isEmpty) = true
    · rw [if_pos h2, if_pos h2]
      rfl
    · rw [if_neg h2, if_neg h2]
      generalize outputs.filterMap PyVal.asChannel = chans
      cases chans with
      | nil => rfl
      | cons c0 rest =>
          dsimp only []
          by_cases h3 : (((c0 :: rest).map PipelineChannel.channel_type).any
              (fun t => !jsonBeq t c0.channel_type)) = true
          · rw [if_pos h3, if_pos h3]
            rfl
          · rw [if_neg h3, if_neg h3]
            by_cases h4 : outputs.length < 2
            · rw [if_pos h4, if_pos h4]
              rfl
            · rw [if_neg h4, if_neg h4]
              rfl

/-- The `_validate_no_parallel_for_parents` reports exactly the rule-level outcome of
the ParallelFor check. -/
theorem validate_no_parallel_for_eq_rule (ns : List (String × List String))
    (g : String → GroupType) :
    validate_no_parallel_for_parents ns g =
      firstSomeErr [ruleLoop ns g] := by
  induction ns with
  | nil => simp [validate_no_parallel_for_parents, ruleLoop, firstSomeErr]
  | cons hd tl ih =>
      rw [validate_no_parallel_for_parents, ruleLoop, List.findSome?_cons]
      cases hf : hd.2.find? (fun par => g par = GroupType.forLoop) with
      | some p => simp [firstSomeErr]
      | none =>
          rw [ih, ruleLoop]
          rfl

/-- The `_validate_no_shared_condition_parents` reports exactly the rule-level
outcome of the shared-Condition check. -/
theorem validate_no_shared_eq_rule (ns : List (String × List String))
    (g : String → GroupType) :
    validate_no_shared_condition_parents ns g = firstSomeErr [ruleShared ns g] := by
  unfold validate_no_shared_condition_parents ruleShared
  cases hf : (parentConditionToTask ns g).find? (fun e => e.2.length > 1) with
  | some e => simp [firstSomeErr]
  | none => simp [firstSomeErr]

/-- The `_validate_all_tasks_have_condition_parents` reports exactly the rule-level
outcome of the missing-Condition check. -/
theorem validate_all_tasks_eq_rule (ns : List (String × List String))
    (g : String → GroupType) :
    validate_all_tasks_have_condition_parents ns g =
      firstSomeErr [ruleMissing ns g] := by
  induction ns with
  | nil => simp [validate_all_tasks_have_condition_parents, ruleMissing, firstSomeErr]
  | cons hd tl ih =>
      rw [validate_all_tasks_have_condition_parents, ruleMissing]
      by_cases hhd : (conditionParentsComprehension hd.2 g).isEmpty
      · rw [if_pos hhd, List.find?_cons_of_pos _ (by simpa using hhd)]
        simp [firstSomeErr]
      · rw [if_neg hhd, List.find?_cons_of_neg _ (by simpa using hhd)]
        rw [ih, ruleMissing]

/-- C6 (amended): the complete `OneOf` validation is deterministic and
short-circuits on the first failing rule, but the rule order of the SOURCE is:
(1) constant operands, (2) pipeline-input operands, (3) type uniformity — whose
`outputs[0]` raises `IndexError` when there are no outputs at all, before the
arity rule can fire —, (4) arity, then the topology preprocessing (self-entry
stripping) and the topology rules in the order (5) ParallelFor ancestor,
(6) shared Condition parent, (7) missing Condition ancestor — the REVERSE of the
spec's topology order. -/
theorem c6_first_violation_in_code_order (outputs : List PyVal)
    (m : List (String × List String)) (g : String → GroupType) :
    oneOfValidate outputs m g = codeOrderFirstViolation outputs m g := by
  unfold oneOfValidate codeOrderFirstViolation
  rw [validate_tuple_eq_rules]
  cases hct : ruleConstants outputs with
  | some e => simp [firstSomeErr, bind, Except.bind]
  | none =>
  cases hpp : rulePipelineParams outputs with
  | some e => simp [firstSomeErr, bind, Except.bind]
  | none =>
  cases htu : ruleTypeUniformity outputs with
  | some e => simp [firstSomeErr, bind, Except.bind]
  | none =>
  cases har : ruleArity outputs with
  | some e => simp [firstSomeErr, bind, Except.bind]
  | none =>
  simp only [firstSomeErr, bind, Except.bind]
  unfold validate_topology
  cases hres : resolveBranchParents m (branch_tasks outputs) with
  | error e => simp [bind, Except.bind]
  | ok ns =>
      simp only [bind, Except.bind]
      rw [validate_no_parallel_for_eq_rule]
      cases hlp : ruleLoop ns g with
      | some e => simp [firstSomeErr]
      | none =>
      simp only [firstSomeErr]
      rw [validate_no_shared_eq_rule]
      cases hsh : ruleShared ns g with
      | some e => simp [firstSomeErr]
      | none =>
      simp only [firstSomeErr]
      rw [validate_all_tasks_eq_rule]

/-- C6 counterexample: a `OneOf` whose branch task `t1` sits inside a ParallelFor
and has no Condition ancestor violates both the LoopNotAllowed and the
MissingConditionAncestor rules.  The claimed (spec) order would report
MissingConditionAncestor first; the source raises LoopNotAllowed, because
`_validate_topology` runs the ParallelFor check first. -/
theorem c6_order_counterexample :
    oneOfValidate
        [.channel (.parameter "o1" (.str "String") (some "t1") none),
         .channel (.parameter "o2" (.str "String") (some "t2") none)]
        [("t1", ["t1", "loop1", "root"]), ("t2", ["t2", "c2", "root"])]
        (fun s => if s = "loop1" then GroupType.forLoop
          else if s = "c2" then GroupType.condition else GroupType.root) =
      .error (.loopNotAllowed "t1" "loop1") ∧
    specOneOfAlgorithm
        [.channel (.parameter "o1" (.str "String") (some "t1") none),
         .channel (.parameter "o2" (.str "String") (some "t2") none)]
        [("t1", ["t1", "loop1", "root"]), ("t2", ["t2", "c2", "root"])]
        (fun s => if s = "loop1" then GroupType.forLoop
          else if s = "c2" then GroupType.condition else GroupType.root) =
      .error (.missingConditionAncestor "t1") := ⟨by rfl, by rfl⟩

/-! ### C1: round-trip of the placeholder codec -/

/-- The `takeWhile` over a run of class characters followed by a non-class character
returns exactly the run. -/
theorem takeWhile_append_cons {p : Char → Bool} (l1 : List Char) (c : Char)
    (l2 : List Char) (h1 : ∀ x ∈ l1, p x = true) (h2 : p c = false) :
    (l1 ++ c :: l2).takeWhile p = l1 := by
  induction l1 with
  | nil => simp [List.takeWhile_cons, h2]
  | cons a l ih =>
      have ha := h1 a (by simp)
      simp only [List.cons_append, List.takeWhile_cons, ha, if_pos]
      rw [ih (fun x hx => h1 x (by simp [hx]))]

/-- The `dropWhile` over a run of class characters followed by a non-class character
returns the input from that character on. -/
theorem dropWhile_append_cons {p : Char → Bool} (l1 : List Char) (c : Char)
    (l2 : List Char) (h1 : ∀ x ∈ l1, p x = true) (h2 : p c = false) :
    (l1 ++ c :: l2).dropWhile p = c :: l2 := by
  induction l1 with
  | nil => simp [List.dropWhile_cons, h2]
  | cons a l ih =>
      have ha := h1 a (by simp)
      simp only [List.cons_append, List.dropWhile_cons, ha, if_pos]
      exact ih (fun x hx => h1 x (by simp [hx]))

/-- Matching a literal against itself followed by anything succeeds and consumes
exactly the literal. -/
theorem dropLit_append (lit r : List Char) : dropLit lit (lit ++ r) = some r := by
  induction lit with
  | nil => rfl
  | cons a ls ih => simp [dropLit, ih]

/-- Matching a literal against exactly itself succeeds with nothing left. -/
theorem dropLit_self (lit : List Char) : dropLit lit lit = some [] := by
  simpa using dropLit_append lit []

/-- The anchored regex match succeeds on a well-formed placeholder whose groups
lie in their character classes, captures exactly the three groups, and consumes
the whole placeholder.  (This is where the greedy scanner provably agrees with
the regex: each group run is maximal and the following literal starts with `;`,
which no class contains.) -/
theorem matchAt_encode (t n y : List Char)
    (ht : ∀ c ∈ t, isTaskChar c = true)
    (hn : ∀ c ∈ n, isTaskChar c = true) (hn0 : n ≠ [])
    (hy : ∀ c ∈ y, isTypeChar c = true) :
    matchAt (litHead ++ (t ++ (litName ++ (n ++ (litType ++ (y ++ litTail)))))) =
      some ((⟨t⟩, ⟨n⟩, ⟨y⟩), []) := by
  unfold matchAt
  rw [dropLit_append]
  simp only [Option.bind_eq_bind, Option.some_bind]
  rw [show litName ++ (n ++ (litType ++ (y ++ litTail))) =
      ';' :: ("name=".data ++ (n ++ (litType ++ (y ++ litTail)))) from rfl]
  rw [takeWhile_append_cons t ';' _ ht (by decide),
      dropWhile_append_cons t ';' _ ht (by decide)]
  rw [show (';' :: ("name=".data ++ (n ++ (litType ++ (y ++ litTail))))) =
      litName ++ (n ++ (litType ++ (y ++ litTail))) from rfl]
  rw [dropLit_append]
  simp only [Option.some_bind]
  rw [show litType ++ (y ++ litTail) = ';' :: ("type=".data ++ (y ++ litTail)) from rfl]
  rw [takeWhile_append_cons n ';' _ hn (by decide),
      dropWhile_append_cons n ';' _ hn (by decide)]
  rw [if_neg (by simp [hn0])]
  rw [show (';' :: ("type=".data ++ (y ++ litTail))) = litType ++ (y ++ litTail) from rfl]
  rw [dropLit_append]
  simp only [Option.some_bind]
  rw [show litTail = ';' :: "\x7d\x7d".data from rfl]
  rw [takeWhile_append_cons y ';' _ hy (by decide),
      dropWhile_append_cons y ';' _ hy (by decide)]
  rw [show (';' :: "\x7d\x7d".data) = litTail from rfl]
  rw [dropLit_self]
  rfl

/-- The `findAllAux` on the empty input returns no matches, whatever the fuel. -/
theorem findAllAux_nil (fuel : Nat) : findAllAux fuel [] = [] := by
  cases fuel <;> rfl

/-- When the anchored match at position 0 consumes the whole input, `findAll`
returns exactly that one match. -/
theorem findAll_singleton (s : String) (g : String × String × String)
    (h : matchAt s.data = some (g, [])) (hne : s.data ≠ []) :
    findAll s = [g] := by
  unfold findAll
  cases hd : s.data with
  | nil => exact absurd hd hne
  | cons c rest =>
      rw [hd] at h
      rw [List.length_cons, findAllAux, h]
      dsimp only []
      rw [findAllAux_nil]

/-- Splitting at the first occurrence of a separator character is injective. -/
theorem append_cons_inj {sep : Char} {l1 r1 l2 r2 : List Char}
    (h1 : sep ∉ l1) (h2 : sep ∉ l2)
    (h : l1 ++ sep :: r1 = l2 ++ sep :: r2) : l1 = l2 ∧ r1 = r2 := by
  induction l1 generalizing l2 with
  | nil =>
      cases l2 with
      | nil => simpa using h
      | cons b bs =>
          simp only [List.nil_append, List.cons_append, List.cons.injEq] at h
          exact absurd (h.1 ▸ List.mem_cons_self b bs) h2
  | cons a as ih =>
      cases l2 with
      | nil =>
          simp only [List.nil_append, List.cons_append, List.cons.injEq] at h
          exact absurd (h.1.symm ▸ List.mem_cons_self a as) h1
      | cons b bs =>
          simp only [List.cons_append, List.cons.injEq] at h
          have hrec := ih (fun hm => h1 (List.mem_cons_of_mem _ hm))
            (fun hm => h2 (List.mem_cons_of_mem _ hm)) h.2
          exact ⟨by rw [h.1, hrec.1], hrec.2⟩

/-- Equality of strings from equality of their character lists. -/
theorem stringOfData_inj {s t : String} (h : s.data = t.data) : s = t := by
  cases s; cases t
  exact congrArg String.mk h

/-- A name-body character belongs to the `task`/`name` class of the placeholder
regex. -/
theorem isNameBody_isTaskChar {c : Char} (h : isNameBody c = true) :
    isTaskChar c = true := by
  simp only [isNameBody, Bool.or_eq_true] at h
  simp only [isTaskChar, isPyWord, Bool.or_eq_true]
  tauto

/-- Every character of a grammar-valid name belongs to the `task`/`name`
character class of the placeholder regex, and the name is nonempty. -/
theorem validName_taskChars {s : String} (h : validName s = true) :
    (∀ c ∈ s.data, isTaskChar c = true) ∧ s.data ≠ [] := by
  unfold validName at h
  cases hd : s.data with
  | nil => rw [hd] at h; simp at h
  | cons c rest =>
      rw [hd] at h
      simp only [Bool.and_eq_true, List.all_eq_true] at h
      constructor
      · intro x hx
        rcases List.mem_cons.mp hx with rfl | hx
        · exact isNameBody_isTaskChar (by simp [isNameBody, h.1])
        · exact isNameBody_isTaskChar (h.2 x hx)
      · simp

/-- The anchored match stated over strings (structure eta folds the groups). -/
theorem matchAt_encode_str (T N Y : String)
    (ht : ∀ c ∈ T.data, isTaskChar c = true)
    (hn : ∀ c ∈ N.data, isTaskChar c = true) (hn0 : N.data ≠ [])
    (hy : ∀ c ∈ Y.data, isTypeChar c = true) :
    matchAt (litHead ++ (T.data ++ (litName ++ (N.data ++
        (litType ++ (Y.data ++ litTail)))))) = some ((T, N, Y), []) :=
  matchAt_encode T.data N.data Y.data ht hn hn0 hy

/-- The character-list decomposition of an encoded placeholder. -/
theorem pattern_data (c : PipelineChannel) :
    c.pattern.data =
      litHead ++ ((taskNameField c.task_name).data ++ (litName ++ (c.name.data ++
        (litType ++ ((channelTypeField c.channel_type).data ++ litTail))))) := by
  show (PipelineChannel.str c).data = _
  unfold PipelineChannel.str
  simp only [String.data_append, litHead, litName, litType, litTail, List.append_assoc]

/-- The joint normalization of `__init__` and `__str__` on the task field:
re-encoding the decoded task field reproduces it. -/
theorem taskNameField_normalize (T : String) :
    taskNameField (normalizeTaskName (some T)) = T := by
  unfold taskNameField normalizeTaskName optStrTruthy
  by_cases h : T = ""
  · simp [h]
  · simp [h]

/-- Unpacking the round-trip validity scope. -/
theorem validChannelScope_spec {c : PipelineChannel}
    (h : validChannelScope c = true) :
    validName c.name = true ∧
      (∀ ch ∈ (taskNameField c.task_name).data, isTaskChar ch = true) ∧
      (∀ ch ∈ (channelTypeField c.channel_type).data, isTypeChar ch = true) := by
  unfold validChannelScope at h
  simp only [Bool.and_eq_true] at h
  obtain ⟨⟨h1, h2⟩, h3⟩ := h
  refine ⟨h1, ?_, by simpa [List.all_eq_true] using h3⟩
  cases htn : c.task_name with
  | none =>
      intro ch hch
      simp [taskNameField] at hch
  | some tname =>
      rw [htn] at h2
      intro ch hch
      simp only [taskNameField, Option.getD_some] at hch
      exact (validName_taskChars h2).1 ch hch

/-- Scanning the encoding of a valid channel finds exactly its triple of
fields. -/
theorem findAll_pattern (c : PipelineChannel) (h : validChannelScope c = true) :
    findAll c.pattern =
      [(taskNameField c.task_name, c.name, channelTypeField c.channel_type)] := by
  obtain ⟨h1, h2, h3⟩ := validChannelScope_spec h
  apply findAll_singleton
  · rw [pattern_data]
    exact matchAt_encode_str _ _ _ h2 (validName_taskChars h1).1
      (validName_taskChars h1).2 h3
  · rw [pattern_data]
    intro hnil
    rw [List.append_eq_nil] at hnil
    exact absurd hnil.1 (by decide)

/-- A character outside a class is not among characters of the class. -/
theorem notMem_of_class {p : Char → Bool} {l : List Char} {c : Char}
    (hall : ∀ x ∈ l, p x = true) (hc : p c = false) : c ∉ l := by
  intro hm
  rw [hall c hm] at hc
  exact Bool.noConfusion hc

/-- Decoding the encoding of a channel in the validity scope yields one channel
with the same encoded placeholder string. -/
theorem extract_roundtrip (c : PipelineChannel)
    (h : validChannelScope c = true)
    (hstab : channelTypeField (decodedType (channelTypeField c.channel_type)) =
      channelTypeField c.channel_type) :
    ∃ c', extract_pipeline_channels_from_string c.pattern = .ok [c'] ∧
      c'.pattern = c.pattern := by
  obtain ⟨h1, h2, h3⟩ := validChannelScope_spec h
  unfold extract_pipeline_channels_from_string
  rw [findAll_pattern c h]
  by_cases hp : is_parameter_type (decodedType (channelTypeField c.channel_type)) = true
  · refine ⟨.parameter c.name (decodedType (channelTypeField c.channel_type))
        (normalizeTaskName (some (taskNameField c.task_name))) none, ?_, ?_⟩
    · simp only [List.foldlM, bind, Except.bind]
      rw [if_pos hp]
      rw [parameterChannelInit_eq_ok (by simp [optValTruthy]) hp h1]
      simp [dedupByPattern, dedupAux, pure, Except.pure]
    · rw [show (PipelineChannel.parameter c.name
            (decodedType (channelTypeField c.channel_type))
            (normalizeTaskName (some (taskNameField c.task_name))) none).pattern =
          "\x7b\x7bchannel:task=" ++
            taskNameField (normalizeTaskName (some (taskNameField c.task_name))) ++
            ";name=" ++ c.name ++ ";type=" ++
            channelTypeField (decodedType (channelTypeField c.channel_type)) ++
            ";\x7d\x7d" from rfl]
      rw [show c.pattern = "\x7b\x7bchannel:task=" ++ taskNameField c.task_name ++
          ";name=" ++ c.name ++ ";type=" ++ channelTypeField c.channel_type ++
          ";\x7d\x7d" from rfl]
      rw [taskNameField_normalize, hstab]
  · refine ⟨.artifact c.name (decodedType (channelTypeField c.channel_type))
        (normalizeTaskName (some (taskNameField c.task_name))), ?_, ?_⟩
    · simp only [List.foldlM, bind, Except.bind]
      rw [if_neg hp]
      rw [artifactChannelInit_eq_ok (by simpa using hp) h1]
      simp [dedupByPattern, dedupAux, pure, Except.pure]
    · rw [show (PipelineChannel.artifact c.name
            (decodedType (channelTypeField c.channel_type))
            (normalizeTaskName (some (taskNameField c.task_name)))).pattern =
          "\x7b\x7bchannel:task=" ++
            taskNameField (normalizeTaskName (some (taskNameField c.task_name))) ++
            ";name=" ++ c.name ++ ";type=" ++
            channelTypeField (decodedType (channelTypeField c.channel_type)) ++
            ";\x7d\x7d" from rfl]
      rw [show c.pattern = "\x7b\x7bchannel:task=" ++ taskNameField c.task_name ++
          ";name=" ++ c.name ++ ";type=" ++ channelTypeField c.channel_type ++
          ";\x7d\x7d" from rfl]
      rw [taskNameField_normalize, hstab]

/-- Within the validity scope the encoding determines the three rendered fields:
the task field, the name, and the type field. -/
theorem pattern_fields_inj (c1 c2 : PipelineChannel)
    (v1 : validChannelScope c1 = true) (v2 : validChannelScope c2 = true)
    (hp : c1.pattern = c2.pattern) :
    taskNameField c1.task_name = taskNameField c2.task_name ∧
      c1.name = c2.name ∧
      channelTypeField c1.channel_type = channelTypeField c2.channel_type := by
  obtain ⟨n1, t1, y1⟩ := validChannelScope_spec v1
  obtain ⟨n2, t2, y2⟩ := validChannelScope_spec v2
  have hd : c1.pattern.data = c2.pattern.data := by rw [hp]
  rw [pattern_data, pattern_data] at hd
  replace hd := List.append_cancel_left hd
  rw [show ∀ Z : List Char, litName ++ Z = ';' :: ("name=".data ++ Z)
      from fun _ => rfl] at hd
  obtain ⟨hT, hd2⟩ := append_cons_inj (notMem_of_class t1 (by decide))
    (notMem_of_class t2 (by decide)) hd
  replace hd2 := List.append_cancel_left hd2
  rw [show ∀ Z : List Char, litType ++ Z = ';' :: ("type=".data ++ Z)
      from fun _ => rfl] at hd2
  obtain ⟨hN, hd3⟩ := append_cons_inj
    (notMem_of_class (validName_taskChars n1).1 (by decide))
    (notMem_of_class (validName_taskChars n2).1 (by decide)) hd2
  replace hd3 := List.append_cancel_left hd3
  rw [show litTail = ';' :: "\x7d\x7d".data from rfl] at hd3
  obtain ⟨hY, -⟩ := append_cons_inj (notMem_of_class y1 (by decide))
    (notMem_of_class y2 (by decide)) hd3
  exact ⟨stringOfData_inj hT, stringOfData_inj hN, stringOfData_inj hY⟩

/-- C1 counterexample: the claim fails in both halves.  Round-trip: the artifact
channel with the string type tag `"null"` is constructible, yet decoding its
encoding yields a channel whose OWN encoding differs (the type field parses as
JSON `null`, which re-renders as the empty field).  Injectivity: a channel whose
`channelType` is the STRING `'{"a": "b"}'` and one whose `channelType` is the
DICT `{"a": "b"}` encode to the same placeholder, so `encode` is not injective
over the (producingTask, name, channelType) triple. -/
theorem c1_roundtrip_counterexample :
    (artifactChannelInit "x" (.str "null") (some "t") =
        .ok (.artifact "x" (.str "null") (some "t")) ∧
      extract_pipeline_channels_from_string
          (PipelineChannel.artifact "x" (.str "null") (some "t")).pattern =
        .ok [.artifact "x" .null (some "t")] ∧
      (PipelineChannel.artifact "x" .null (some "t")).pattern ≠
        (PipelineChannel.artifact "x" (.str "null") (some "t")).pattern) ∧
    ((PipelineChannel.artifact "x" (.str "\x7b\"a\": \"b\"\x7d") (some "t")).pattern =
        (PipelineChannel.artifact "x" (.obj [("a", .str "b")]) (some "t")).pattern ∧
      JsonVal.str "\x7b\"a\": \"b\"\x7d" ≠ JsonVal.obj [("a", .str "b")]) := by
  exact ⟨⟨rfl, by rfl, by decide⟩, ⟨rfl, fun hh => JsonVal.noConfusion hh⟩⟩

/-- C1 (amended): the round-trip holds for every channel in the validity scope
whose encoded type field is STABLE — re-rendering its decode reproduces it (true
of every type tag that does not parse as JSON, of JSON-stable tags, and of
compound descriptors that fit the type character class; violated e.g. by the tag
`"null"` of the counterexample) — with channel identity taken as equality of
encoded strings; and the encoding is injective over the RENDERED field triple
(task field, name, type field) rather than over the raw
(producingTask, name, channelType) triple, distinct values of which can render
identically (see the counterexample). -/
theorem c1_roundtrip_amended (c c1 c2 : PipelineChannel)
    (hc : validChannelScope c = true)
    (hstab : channelTypeField (decodedType (channelTypeField c.channel_type)) =
      channelTypeField c.channel_type)
    (h1 : validChannelScope c1 = true) (h2 : validChannelScope c2 = true) :
    (∃ c', extract_pipeline_channels_from_string c.pattern = .ok [c'] ∧
      c'.pattern = c.pattern) ∧
    (c1.pattern = c2.pattern →
      taskNameField c1.task_name = taskNameField c2.task_name ∧
        c1.name = c2.name ∧
        channelTypeField c1.channel_type = channelTypeField c2.channel_type) :=
  ⟨extract_roundtrip c hc hstab, pattern_fields_inj c1 c2 h1 h2⟩

/-- Witness for `c1_roundtrip_amended` at the concrete channel encoding
`{{channel:task=t;name=x;type=String;}}`. -/
theorem c1_roundtrip_witness :
    validChannelScope (PipelineChannel.parameter "x" (.str "String") (some "t") none) =
        true ∧
      (∃ c', extract_pipeline_channels_from_string
          (PipelineChannel.parameter "x" (.str "String") (some "t") none).pattern =
          .ok [c'] ∧
        c'.pattern =
          (PipelineChannel.parameter "x" (.str "String") (some "t") none).pattern) :=
  ⟨by decide,
   (c1_roundtrip_amended
      (PipelineChannel.parameter "x" (.str "String") (some "t") none)
      (PipelineChannel.parameter "x" (.str "String") (some "t") none)
      (PipelineChannel.parameter "x" (.str "String") (some "t") none)
      (by decide) (by decide) (by decide) (by decide)).1⟩

end KfpChannel
